import Mathlib

/-!
# Book Management Library — recommendation & rating engine, shallow embedding

Shallow embedding of the recommendation and rating-aggregation subsystem of
the Book_Management_Library service, translated from:

* `src/services/recommendation_service.py` (`RecommendationService`)
* `src/services/review_service.py`        (`ReviewService.get_book_rating_summary`)
* `src/models/__init__.py`                (`Book.average_rating`)

Modelling conventions:

* Database rows become Lean structures; the catalog/review store becomes a
  `DB` value holding the `books` and `reviews` tables as lists in
  catalog-native order.
* SQLAlchemy queries become pure list operations: `WHERE` is `filter`,
  `LIMIT n` is `take n`, `ORDER BY k` is a stable `insertionSort` on `k`,
  `GROUP BY book_id` with `avg`/`count` aggregates becomes the per-book
  `ratingsFor`/`avgRating`/`reviewCount` helpers, and a `JOIN` of books
  against the review aggregate keeps exactly the books with at least one
  review row.
* Numeric rating values (Python floats) are modelled as exact rationals
  `ℚ`; Python's `round(x, 2)` is modelled as exact scaled rounding with
  ties to even (`round2`), which agrees with Python on the dyadic values
  exercised here.
* The Groq client call (`llm_service.generate_recommendations`) is modelled
  as an oracle `Advisor` function returning `Except String String`:
  `.ok reasoning` for a successful completion, `.error e` for any raised
  exception (unconfigured client, timeout, transport error); the
  `try/except` of `get_recommendations_with_llm` becomes a `match` on
  that result.
-/

/-- A row of the `books` table (`Book` model, `src/models/__init__.py`);
the columns the engine reads. -/
structure Book where
  id : Nat
  title : String
  author : String
  genre : String
deriving DecidableEq, Repr

/-- A row of the `reviews` table (`Review` model, `src/models/__init__.py`). -/
structure Review where
  id : Nat
  book_id : Nat
  user_id : Nat
  rating : Rat
  review_text : String
deriving DecidableEq, Repr

/-- The catalog/review store visible to the engine: the two tables, rows in
catalog-native order. -/
structure DB where
  books : List Book
  reviews : List Review
deriving Repr

/-- All rating values of the reviews of one book
(`SELECT rating FROM reviews WHERE book_id = :id`), in table order. -/
def ratingsFor (db : DB) (book_id : Nat) : List Rat :=
  (db.reviews.filter (fun r => r.book_id == book_id)).map (fun r => r.rating)

/-- `COUNT(reviews.id)` grouped by book. -/
def reviewCount (db : DB) (book_id : Nat) : Nat :=
  (ratingsFor db book_id).length

/-- `AVG(reviews.rating)` grouped by book (0 when the book has no reviews;
only consulted for books that survive the `JOIN` on the review aggregate,
which have at least one review). -/
def avgRating (db : DB) (book_id : Nat) : Rat :=
  (ratingsFor db book_id).sum / (reviewCount db book_id : Rat)

/-- `ReviewService.get_book_rating_summary` (`review_service.py:183-204`):
one aggregate query producing `(avg(rating), count(id))` for the book, then
`float(avg_rating) if avg_rating else 0.0, total_reviews or 0` — the SQL
`AVG` is `NULL` (here `none`) when there are no rows, and Python truthiness
also maps an average of `0` to `0.0`. No rounding is applied. -/
def get_book_rating_summary (db : DB) (book_id : Nat) : Rat × Nat :=
  let rs := ratingsFor db book_id
  let avg_rating : Option Rat :=
    if rs.length = 0 then none else some (rs.sum / (rs.length : Rat))
  let total_reviews := rs.length
  (match avg_rating with
   | some a => if a = 0 then 0 else a
   | none => 0,
   total_reviews)

/-- Rounds a rational to the nearest integer, ties to even — the rounding
of Python's built-in `round` on exact values. -/
def roundHalfEvenInt (q : Rat) : Int :=
  let f := ⌊q⌋
  if q - (f : Rat) < 1/2 then f
  else if (1 : Rat)/2 < q - (f : Rat) then f + 1
  else if f % 2 = 0 then f else f + 1

/-- Python's `round(x, 2)` on exact rationals: scale by 100, round ties to
even, scale back. -/
def round2 (q : Rat) : Rat :=
  ((roundHalfEvenInt (q * 100) : Rat)) / 100

/-- Round-half-up to 2 decimal places — the rounding rule named by the
specification (§4.1); defined here only to compare against the code's
behavior. -/
def roundHalfUp2 (q : Rat) : Rat :=
  ((⌊q * 100 + 1/2⌋ : Rat)) / 100

/-- `Book.average_rating` property (`src/models/__init__.py:84-92`): `None`
when the `reviews` relationship is not loaded (`'reviews' not in
self.__dict__`, here `none`) or loaded empty; otherwise
`round(sum(r.rating)/len(reviews), 2)` with Python's `round`.
The loaded-relationship state is passed explicitly as
`Option (List Review)`. -/
def Book.average_rating (loadedReviews : Option (List Review)) : Option Rat :=
  match loadedReviews with
  | none => none
  | some [] => none
  | some revs => some (round2 ((revs.map Review.rating).sum / (revs.length : Rat)))

/-- Case-folded character list of a string. -/
def foldChars (s : String) : List Char :=
  s.toList.map Char.toLower

/-- `startsWithSeq pat hay`: `pat` is an initial segment of `hay`. -/
def startsWithSeq : List Char → List Char → Bool
  | [], _ => true
  | _ :: _, [] => false
  | p :: ps, h :: hs => p == h && startsWithSeq ps hs

/-- `occursIn pat hay`: `pat` occurs contiguously somewhere in `hay`. -/
def occursIn (pat : List Char) : List Char → Bool
  | [] => pat.isEmpty
  | h :: hs => startsWithSeq pat (h :: hs) || occursIn pat hs

/-- SQL `field ILIKE '%pat%'`: case-insensitive substring match, as used by
`Book.genre.ilike(f"%{genre}%")`. -/
def ilikeContains (field pat : String) : Bool :=
  occursIn (foldChars pat) (foldChars field)

/-- `RecommendationService.get_recommendations_by_genre`
(`recommendation_service.py:22-50`): books whose genre contains `genre`
case-insensitively, minus the excluded ids, truncated to `limit`
(`exclude_book_ids = None` is the empty exclusion list). -/
def get_recommendations_by_genre
    (db : DB) (genre : String) (limit : Nat) (exclude_book_ids : List Nat) :
    List Book :=
  ((db.books.filter
      (fun b => ilikeContains b.genre genre && !(exclude_book_ids.contains b.id)))).take limit

/-- The `ORDER BY avg_rating DESC` relation of `get_popular_books`:
`a` precedes `b` when `b`'s average rating is at most `a`'s. -/
def popRel (db : DB) (a b : Book) : Prop :=
  avgRating db b.id ≤ avgRating db a.id

/-- Decidability of `popRel`. -/
def popRelDec (db : DB) : DecidableRel (popRel db) :=
  fun a b => inferInstanceAs (Decidable (avgRating db b.id ≤ avgRating db a.id))

/-- `popRel` is total. -/
def popRelTotal (db : DB) : IsTotal Book (popRel db) :=
  ⟨fun a b => le_total (avgRating db b.id) (avgRating db a.id)⟩

/-- `popRel` is transitive. -/
def popRelTrans (db : DB) : IsTrans Book (popRel db) :=
  ⟨fun _ _ _ hab hbc => le_trans hbc hab⟩

/-- `RecommendationService.get_popular_books`
(`recommendation_service.py:52-87`): join the catalog against the per-book
review aggregate (so only books with at least one review appear), keep
`review_count >= min_reviews`, `ORDER BY avg_rating DESC` (tie order left
to the stable sort), `LIMIT limit`. -/
def get_popular_books (db : DB) (limit : Nat) (min_reviews : Nat) : List Book :=
  let eligible := db.books.filter
    (fun b => decide (1 ≤ reviewCount db b.id ∧ min_reviews ≤ reviewCount db b.id))
  (@List.insertionSort Book (popRel db) (popRelDec db) eligible).take limit

/-- `BookService.get_book_by_id` (`book_service.py:51-64`): the row with
the given primary key, or `none`. -/
def get_book_by_id (db : DB) (book_id : Nat) : Option Book :=
  db.books.find? (fun b => b.id == book_id)

/-- `RecommendationService.get_similar_books`
(`recommendation_service.py:89-121`): look up the reference book; if
absent return `[]`; otherwise up to `limit` other books with the exact
same genre string. -/
def get_similar_books (db : DB) (book_id : Nat) (limit : Nat) : List Book :=
  match get_book_by_id db book_id with
  | none => []
  | some book =>
      (db.books.filter (fun b => b.genre == book.genre && b.id != book_id)).take limit

/-- Book metadata handed to the advisor
(`get_recommendations_with_llm`, lines 147-156): the books are loaded by a
plain `select(Book)` with no eager load of `reviews`, so
`book.average_rating` is `None` for every row and `or 0` turns it into 0. -/
structure BookData where
  title : String
  author : String
  genre : String
  id : Nat
  average_rating : Rat
deriving DecidableEq, Repr

/-- The External Advisor call (`llm_service.generate_recommendations`):
an oracle from the preference text, the offered book metadata and the
limit to either a reasoning string (`.ok`) or the text of the raised
exception (`.error`) — unconfigured client, timeout, transport error and
malformed response all surface as `RuntimeError`s, i.e. `.error`. -/
def Advisor : Type :=
  String → List BookData → Nat → Except String String

/-- The `books_data` payload built for the advisor (lines 141-156):
first 100 catalog rows, each with `average_rating or 0`. -/
def booksData (db : DB) : List BookData :=
  (db.books.take 100).map (fun b =>
    { title := b.title
      author := b.author
      genre := b.genre
      id := b.id
      average_rating := (Book.average_rating none).getD 0 })

/-- The ascending-id relation of `ORDER BY Book.id`. -/
def bookIdRel (a b : Book) : Prop := a.id ≤ b.id

/-- Decidability of `bookIdRel`. -/
def bookIdRelDec : DecidableRel bookIdRel :=
  fun a b => inferInstanceAs (Decidable (a.id ≤ b.id))

/-- `SELECT * FROM books ORDER BY id`: stable ascending sort on the
primary key. -/
def sortById (books : List Book) : List Book :=
  @List.insertionSort Book bookIdRel bookIdRelDec books

/-- `RecommendationService.get_recommendations_with_llm`
(`recommendation_service.py:124-174`): build `books_data`, call the
advisor; on success return the first `limit` books ordered by ascending id
together with the reasoning text; on any exception fall back to
`get_popular_books(session, limit)` (default `min_reviews = 2`) and return
the exception text in place of the reasoning. The Python function returns
normally on both paths — the embedding is a total function. -/
def get_recommendations_with_llm
    (db : DB) (advisor : Advisor) (user_preferences : String) (limit : Nat) :
    List Book × String :=
  match advisor user_preferences (booksData db) limit with
  | Except.ok reasoning => ((sortById db.books).take limit, reasoning)
  | Except.error e => (get_popular_books db limit 2, e)

/-- The favorite-genres query of `get_user_recommendations`
(lines 193-201): genres of books the user has reviewed with rating ≥ 4
(an inner join, so the review must reference an existing book), distinct
(`GROUP BY genre`, first occurrence in table order), `LIMIT 3`. -/
def favoriteGenres (db : DB) (user_id : Nat) : List String :=
  let rows := db.reviews.filterMap (fun r =>
    if r.user_id = user_id ∧ 4 ≤ r.rating then
      (get_book_by_id db r.book_id).map (fun b => b.genre)
    else none)
  rows.dedup.take 3

/-- The per-genre candidate count requested from
`get_recommendations_by_genre` inside `get_user_recommendations`
(line 211): `limit // len(favorite_genres) + 1`. -/
def perGenreLimit (limit n : Nat) : Nat :=
  limit / n + 1

/-- The dedupe-and-bound loop of `get_user_recommendations`
(lines 215-223): walk the concatenated candidates, keep each first
occurrence of a book id, and break as soon as the kept list has reached
`limit` — the break is tested after appending, so `count` tracks the
number already kept. -/
def dedupLoop (limit : Nat) : Nat → List Nat → List Book → List Book
  | _, _, [] => []
  | count, seen_ids, book :: rest =>
    if book.id ∈ seen_ids then dedupLoop limit count seen_ids rest
    else if limit ≤ count + 1 then [book]
    else book :: dedupLoop limit (count + 1) (book.id :: seen_ids) rest

/-- `RecommendationService.get_user_recommendations`
(`recommendation_service.py:176-225`): favorite genres of the user; if
none, fall back to `get_popular_books(session, limit)`; otherwise fetch
`limit // n + 1` candidates per favorite genre, concatenate in
favorite-genre order, and dedupe/bound with the loop above. -/
def get_user_recommendations (db : DB) (user_id : Nat) (limit : Nat) : List Book :=
  let favorite_genres := favoriteGenres db user_id
  if favorite_genres.isEmpty then
    get_popular_books db limit 2
  else
    let recommendations := favorite_genres.flatMap (fun g =>
      get_recommendations_by_genre db g (perGenreLimit limit favorite_genres.length) [])
    dedupLoop limit 0 [] recommendations

/-- Empty store: no books, no reviews. -/
def dbEmpty : DB := ⟨[], []⟩

/-- One book with four reviews rated `[3.0, 4.0, 5.0, 4.5]` — the worked
example of the specification (§8). -/
def dbFour : DB :=
  ⟨[⟨1, "Test Book", "Test Author", "Fiction"⟩],
   [⟨1, 1, 1, 3, "ok"⟩, ⟨2, 1, 2, 4, "good"⟩, ⟨3, 1, 3, 5, "great"⟩, ⟨4, 1, 4, 4.5, "fine"⟩]⟩

/-- An advisor whose call always raises (e.g. a timeout). -/
def advFail : Advisor := fun _ _ _ => Except.error "Request timed out"

/-- An advisor whose call always succeeds with fixed reasoning text. -/
def advOk : Advisor := fun _ _ _ => Except.ok "These match your taste"

/-- C6: for every book with zero reviews, `get_book_rating_summary` returns
exactly the sentinel pair `(0.0, 0)` — a total function, never an absent
value. -/
theorem c6_no_reviews_sentinel (db : DB) (book_id : Nat)
    (h : ratingsFor db book_id = []) :
    get_book_rating_summary db book_id = (0, 0) := by
  simp [get_book_rating_summary, h]

/-- Witness for `c6_no_reviews_sentinel` at the empty store, book 7. -/
theorem c6_witness :
    ratingsFor dbEmpty 7 = [] ∧ get_book_rating_summary dbEmpty 7 = (0, 0) :=
  ⟨rfl, c6_no_reviews_sentinel dbEmpty 7 rfl⟩

/-- C7: for every book id absent from the catalog and every limit,
`get_similar_books` returns the empty sequence (no error signal). -/
theorem c7_similar_missing_book (db : DB) (book_id limit : Nat)
    (h : ∀ b ∈ db.books, b.id ≠ book_id) :
    get_similar_books db book_id limit = [] := by
  have hf : get_book_by_id db book_id = none := by
    unfold get_book_by_id
    rw [List.find?_eq_none]
    intro b hb
    simp [h b hb]
  simp [get_similar_books, hf]

/-- Witness for `c7_similar_missing_book`: the store with one book (id 1)
and the absent id 2. -/
theorem c7_witness :
    (∀ b ∈ dbFour.books, b.id ≠ 2) ∧ get_similar_books dbFour 2 5 = [] :=
  ⟨by decide, c7_similar_missing_book dbFour 2 5 (by decide)⟩

/-- C4 counterexample: with `limit = 4` and `2` favorite genres the code
requests `4 // 2 + 1 = 3` candidates per genre, while
`ceil(4 / 2) = (4 + 2 - 1) / 2 = 2`. -/
theorem c4_counterexample :
    perGenreLimit 4 2 = 3 ∧ (4 + 2 - 1) / 2 = 2 ∧ (3 : Nat) ≠ 2 := by
  decide

/-- C4 amended: the per-genre request made inside
`get_user_recommendations` is `limit // n + 1 = (limit + n) / n`
(`= ceil((limit + 1) / n)`), not `ceil(limit / n)`. -/
theorem c4_per_genre_floor_succ (limit n : Nat) (h : 0 < n) :
    perGenreLimit limit n = (limit + n) / n := by
  unfold perGenreLimit
  rw [Nat.add_div_right _ h]

/-- Witness for `c4_per_genre_floor_succ` at `limit = 7`, `n = 3`. -/
theorem c4_witness : 0 < 3 ∧ perGenreLimit 7 3 = (7 + 3) / 3 :=
  ⟨by decide, c4_per_genre_floor_succ 7 3 (by decide)⟩

/-- C5: a user with no review rated ≥ 4 has no favorite genres, and
`get_user_recommendations` then returns exactly
`get_popular_books(limit)` with the default `min_reviews = 2`. -/
theorem c5_no_favorites_popular (db : DB) (user_id limit : Nat)
    (h : ∀ r ∈ db.reviews, r.user_id = user_id → r.rating < 4) :
    get_user_recommendations db user_id limit = get_popular_books db limit 2 := by
  have hfav : favoriteGenres db user_id = [] := by
    unfold favoriteGenres
    have hnil : db.reviews.filterMap (fun r =>
        if r.user_id = user_id ∧ 4 ≤ r.rating then
          (get_book_by_id db r.book_id).map (fun b => b.genre)
        else none) = [] := by
      rw [List.filterMap_eq_nil_iff]
      intro r hr
      rw [if_neg]
      rintro ⟨h1, h2⟩
      exact absurd h2 (not_le.mpr (h r hr h1))
    simp [hnil]
  simp [get_user_recommendations, hfav]

/-- Witness for `c5_no_favorites_popular` at the empty store, user 3,
limit 5 (both sides evaluate to the empty list). -/
theorem c5_witness :
    (∀ r ∈ dbEmpty.reviews, r.user_id = 3 → r.rating < 4)
    ∧ get_user_recommendations dbEmpty 3 5 = get_popular_books dbEmpty 5 2 :=
  ⟨by simp [dbEmpty], c5_no_favorites_popular dbEmpty 3 5 (by simp [dbEmpty])⟩

/-- C1 counterexample: on the empty catalog, a failing advisor call makes
`get_recommendations_with_llm` return the popularity fallback, which is
the **empty** list — the claim's "this list is non-empty" is false. -/
theorem c1_counterexample :
    get_recommendations_with_llm dbEmpty advFail "science fiction" 5
      = ([], "Request timed out") := by
  rfl

/-- C1 amended: if the advisor call raises with text `e`, the operation
returns normally with exactly the `get_popular_books(limit)` list (default
`min_reviews = 2`, possibly empty) and `e` as the reasoning string. -/
theorem c1_advisor_failure_fallback (db : DB) (advisor : Advisor)
    (prefs : String) (limit : Nat) (e : String)
    (h : advisor prefs (booksData db) limit = Except.error e) :
    get_recommendations_with_llm db advisor prefs limit
      = (get_popular_books db limit 2, e) := by
  unfold get_recommendations_with_llm
  rw [h]

/-- Witness for `c1_advisor_failure_fallback`: the four-review store with
the always-failing advisor. -/
theorem c1_witness :
    advFail "mystery" (booksData dbFour) 3 = Except.error "Request timed out"
    ∧ get_recommendations_with_llm dbFour advFail "mystery" 3
        = (get_popular_books dbFour 3 2, "Request timed out") :=
  ⟨rfl, c1_advisor_failure_fallback dbFour advFail "mystery" 3 "Request timed out" rfl⟩

/-- C9: on the advisor success path the returned book list does not depend
on the preference text — for any two preference strings it is the same
list, namely the first `limit` catalog books ordered by ascending id; only
the reasoning string can differ. -/
theorem c9_prefs_noninterference (db : DB) (advisor : Advisor)
    (p1 p2 : String) (limit : Nat) (r1 r2 : String)
    (h1 : advisor p1 (booksData db) limit = Except.ok r1)
    (h2 : advisor p2 (booksData db) limit = Except.ok r2) :
    (get_recommendations_with_llm db advisor p1 limit).1
        = (get_recommendations_with_llm db advisor p2 limit).1
    ∧ (get_recommendations_with_llm db advisor p1 limit).1
        = (sortById db.books).take limit := by
  unfold get_recommendations_with_llm
  rw [h1, h2]
  exact ⟨rfl, rfl⟩

/-- Witness for `c9_prefs_noninterference`: two distinct preference texts
against the always-succeeding advisor over the four-review store. -/
theorem c9_witness :
    advOk "space opera" (booksData dbFour) 2 = Except.ok "These match your taste"
    ∧ ((get_recommendations_with_llm dbFour advOk "space opera" 2).1
          = (get_recommendations_with_llm dbFour advOk "cozy mystery" 2).1
       ∧ (get_recommendations_with_llm dbFour advOk "space opera" 2).1
          = (sortById dbFour.books).take 2) :=
  ⟨rfl, c9_prefs_noninterference dbFour advOk "space opera" "cozy mystery" 2
    "These match your taste" "These match your taste" rfl rfl⟩

/-- C2 counterexample: on the spec's own worked example — one book with
reviews rated `[3.0, 4.0, 5.0, 4.5]` — `get_book_rating_summary` returns
the exact mean `33/8 = 4.125` and count 4, and `4.125 ≠ 4.13`: no
round-half-up (nor any) rounding is applied. -/
theorem c2_counterexample :
    get_book_rating_summary dbFour 1 = (33/8, 4) ∧ ((33 : Rat)/8 ≠ 413/100) := by
  constructor
  · simp only [get_book_rating_summary, ratingsFor, dbFour]
    norm_num
  · norm_num

/-- C2 amended: whenever the book has at least one review,
`get_book_rating_summary` returns the **unrounded** mean — the returned
average times the review count equals the exact sum of the ratings — and
the review count; on `[3.0, 4.0, 5.0, 4.5]` that is `(4.125, 4)`. -/
theorem c2_summary_exact_mean (db : DB) (book_id : Nat)
    (h : ratingsFor db book_id ≠ []) :
    (get_book_rating_summary db book_id).1 * ((ratingsFor db book_id).length : Rat)
      = (ratingsFor db book_id).sum
    ∧ (get_book_rating_summary db book_id).2 = (ratingsFor db book_id).length := by
  have hlen : ¬ (ratingsFor db book_id).length = 0 := by
    simpa [List.length_eq_zero] using h
  have hlenQ : ((ratingsFor db book_id).length : Rat) ≠ 0 :=
    Nat.cast_ne_zero.mpr hlen
  simp only [get_book_rating_summary, if_neg hlen]
  refine ⟨?_, trivial⟩
  by_cases h0 : (ratingsFor db book_id).sum / ((ratingsFor db book_id).length : Rat) = 0
  · rw [if_pos h0]
    have hsum : (ratingsFor db book_id).sum = 0 :=
      (div_eq_zero_iff.mp h0).resolve_right hlenQ
    simp [hsum]
  · rw [if_neg h0]
    exact div_mul_cancel₀ _ hlenQ

/-- Witness for `c2_summary_exact_mean` on the four-review store. -/
theorem c2_witness :
    ratingsFor dbFour 1 ≠ []
    ∧ ((get_book_rating_summary dbFour 1).1 * ((ratingsFor dbFour 1).length : Rat)
          = (ratingsFor dbFour 1).sum
       ∧ (get_book_rating_summary dbFour 1).2 = (ratingsFor dbFour 1).length) :=
  ⟨by simp [ratingsFor, dbFour], c2_summary_exact_mean dbFour 1 (by simp [ratingsFor, dbFour])⟩

/-- C8: for every store, limit and `min_reviews`, the `get_popular_books`
list is bounded by `limit`, every returned book has at least `min_reviews`
reviews, and the list is ordered by non-increasing average rating. -/
theorem c8_popular_books_spec (db : DB) (limit min_reviews : Nat) :
    (get_popular_books db limit min_reviews).length ≤ limit
    ∧ (∀ b ∈ get_popular_books db limit min_reviews, min_reviews ≤ reviewCount db b.id)
    ∧ List.Pairwise (fun a b => avgRating db b.id ≤ avgRating db a.id)
        (get_popular_books db limit min_reviews) := by
  simp only [get_popular_books]
  refine ⟨List.length_take_le _ _, ?_, ?_⟩
  · intro b hb
    have hb1 := List.take_subset _ _ hb
    have hb2 := (@List.perm_insertionSort Book (popRel db) (popRelDec db) _).subset hb1
    have hb3 := (List.mem_filter.mp hb2).2
    exact (of_decide_eq_true hb3).2
  · have hs := @List.sorted_insertionSort Book (popRel db) (popRelDec db)
      (popRelTotal db) (popRelTrans db)
      (db.books.filter
        (fun b => decide (1 ≤ reviewCount db b.id ∧ min_reviews ≤ reviewCount db b.id)))
    exact List.Pairwise.imp (fun hab => hab)
      (List.Pairwise.sublist (List.take_sublist _ _) hs)

/-- The dedupe loop keeps pairwise-distinct book ids, all of them outside
the initial `seen` set. -/
theorem dedupLoop_nodup (limit : Nat) (l : List Book) :
    ∀ (count : Nat) (seen : List Nat),
      ((dedupLoop limit count seen l).map Book.id).Nodup
      ∧ ∀ b ∈ dedupLoop limit count seen l, b.id ∉ seen := by
  induction l with
  | nil =>
    intro count seen
    simp [dedupLoop]
  | cons b rest ih =>
    intro count seen
    by_cases hmem : b.id ∈ seen
    · simp only [dedupLoop, if_pos hmem]
      exact ih count seen
    · by_cases hlim : limit ≤ count + 1
      · simp only [dedupLoop, if_neg hmem, if_pos hlim]
        refine ⟨by simp, ?_⟩
        intro x hx
        rw [List.mem_singleton] at hx
        subst hx
        exact hmem
      · simp only [dedupLoop, if_neg hmem, if_neg hlim]
        obtain ⟨ih1, ih2⟩ := ih (count + 1) (b.id :: seen)
        refine ⟨?_, ?_⟩
        · rw [List.map_cons, List.nodup_cons]
          refine ⟨?_, ih1⟩
          intro hcontra
          obtain ⟨x, hx, hxid⟩ := List.mem_map.mp hcontra
          exact (ih2 x hx) (hxid ▸ List.mem_cons_self _ _)
        · intro x hx
          rcases List.mem_cons.mp hx with h | h
          · subst h
            exact hmem
          · intro hs
            exact (ih2 x h) (List.mem_cons_of_mem _ hs)

/-- With `count` items already kept and `count < limit`, the dedupe loop
adds at most `limit - count` further items. -/
theorem dedupLoop_length (limit : Nat) (l : List Book) :
    ∀ (count : Nat) (seen : List Nat), count < limit →
      (dedupLoop limit count seen l).length ≤ limit - count := by
  induction l with
  | nil =>
    intro count seen _
    simp [dedupLoop]
  | cons b rest ih =>
    intro count seen h
    by_cases hmem : b.id ∈ seen
    · simp only [dedupLoop, if_pos hmem]
      exact ih count seen h
    · by_cases hlim : limit ≤ count + 1
      · simp only [dedupLoop, if_neg hmem, if_pos hlim, List.length_singleton]
        omega
      · simp only [dedupLoop, if_neg hmem, if_neg hlim, List.length_cons]
        have := ih (count + 1) (b.id :: seen) (by omega)
        omega

/-- `get_popular_books` preserves distinctness of the catalog's primary
keys: filtering, permuting (sorting) and truncating keep `Nodup`. -/
theorem popular_ids_nodup (db : DB) (limit min_reviews : Nat)
    (h : (db.books.map Book.id).Nodup) :
    ((get_popular_books db limit min_reviews).map Book.id).Nodup := by
  simp only [get_popular_books]
  apply List.Nodup.sublist ((List.take_sublist _ _).map Book.id)
  apply List.Perm.nodup
    (((@List.perm_insertionSort Book (popRel db) (popRelDec db) _).map Book.id).symm)
  exact List.Nodup.sublist ((List.filter_sublist _).map Book.id) h

/-- C3 (amended): over a catalog with distinct primary keys, the book ids
in `get_user_recommendations` output are pairwise distinct for every
limit, and for every `limit ≥ 1` the output length is at most `limit`
(at `limit = 0` the dedupe loop can keep one book, see the
counterexample). -/
theorem c3_user_recs_bounded_distinct (db : DB) (user_id limit : Nat)
    (hids : (db.books.map Book.id).Nodup) :
    ((get_user_recommendations db user_id limit).map Book.id).Nodup
    ∧ (1 ≤ limit → (get_user_recommendations db user_id limit).length ≤ limit) := by
  simp only [get_user_recommendations]
  by_cases hfav : (favoriteGenres db user_id).isEmpty
  · rw [if_pos hfav]
    refine ⟨popular_ids_nodup db limit 2 hids, fun _ => ?_⟩
    simp only [get_popular_books]
    exact List.length_take_le _ _
  · rw [if_neg hfav]
    refine ⟨(dedupLoop_nodup limit _ 0 []).1, fun hl => ?_⟩
    have := dedupLoop_length limit
      ((favoriteGenres db user_id).flatMap (fun g =>
        get_recommendations_by_genre db g
          (perGenreLimit limit (favoriteGenres db user_id).length) []))
      0 [] (by omega)
    simpa using this

/-- Witness for `c3_user_recs_bounded_distinct` on the four-review store,
user 2, limit 5. -/
theorem c3_witness :
    (dbFour.books.map Book.id).Nodup
    ∧ (((get_user_recommendations dbFour 2 5).map Book.id).Nodup
       ∧ (1 ≤ 5 → (get_user_recommendations dbFour 2 5).length ≤ 5)) :=
  ⟨by decide, c3_user_recs_bounded_distinct dbFour 2 5 (by decide)⟩

/-- C3 counterexample: at `limit = 0` the dedupe loop tests the bound only
after appending, so a user with a favorite genre gets one recommendation —
the claimed `length ≤ limit` fails for this limit. -/
theorem c3_counterexample :
    (get_user_recommendations dbFour 2 0).length = 1 ∧ ¬ ((1 : Nat) ≤ 0) := by
  constructor
  · decide
  · decide

/-- C10 counterexample: on reviews `[3.0, 4.0, 5.0, 4.5]` the rating
summary returns the unrounded mean `33/8 = 4.125`, which is not its own
round-half-up (`4.13`) — the summary follows no round-half-up convention,
contrary to the claim's characterization. -/
theorem c10_counterexample :
    (get_book_rating_summary dbFour 1).1 = 33/8
    ∧ roundHalfUp2 ((33 : Rat)/8) = 413/100
    ∧ (get_book_rating_summary dbFour 1).1
        ≠ roundHalfUp2 ((get_book_rating_summary dbFour 1).1) := by
  have h1 : (get_book_rating_summary dbFour 1).1 = 33/8 := by
    simp only [get_book_rating_summary, ratingsFor, dbFour]
    norm_num
  refine ⟨h1, ?_, ?_⟩
  · norm_num [roundHalfUp2]
  · rw [h1]
    norm_num [roundHalfUp2]

/-- C10 amended: `Book.average_rating` returns `none` (absent, not 0)
when the review relationship is unloaded or empty, and otherwise the mean
rounded to 2 decimals with ties to even — on the mean `4.125` that gives
`4.12 = 103/25` — while `get_book_rating_summary` returns the `(0, 0)`
sentinel and the **unrounded** mean `4.125`: sentinel and rounding both
differ. -/
theorem c10_average_rating_spec :
    Book.average_rating none = none
    ∧ Book.average_rating (some []) = none
    ∧ (∀ revs : List Review, revs ≠ [] →
        Book.average_rating (some revs)
          = some (round2 ((revs.map Review.rating).sum / (revs.length : Rat))))
    ∧ get_book_rating_summary dbEmpty 1 = (0, 0)
    ∧ round2 ((33 : Rat)/8) = 103/25
    ∧ (get_book_rating_summary dbFour 1).1 = 33/8
    ∧ ((103 : Rat)/25 ≠ 33/8) := by
  refine ⟨rfl, rfl, ?_, rfl, ?_, ?_, by norm_num⟩
  · intro revs h
    cases revs with
    | nil => exact absurd rfl h
    | cons r rest => rfl
  · norm_num [round2, roundHalfEvenInt]
  · simp only [get_book_rating_summary, ratingsFor, dbFour]
    norm_num

/-- Witness for `c10_average_rating_spec` at a one-review load. -/
theorem c10_witness :
    ([(⟨1, 1, 1, 3, "ok"⟩ : Review)] ≠ ([] : List Review))
    ∧ Book.average_rating (some [⟨1, 1, 1, 3, "ok"⟩])
        = some (round2 ((([(⟨1, 1, 1, 3, "ok"⟩ : Review)].map Review.rating).sum)
            / (([(⟨1, 1, 1, 3, "ok"⟩ : Review)].length : Rat)))) :=
  ⟨by simp, c10_average_rating_spec.2.2.1 [⟨1, 1, 1, 3, "ok"⟩] (by simp)⟩
